import Mathlib

/-!
Shallow embedding of `src/main.rs` of the iSMS-DCS repository: an OPC UA
client that reads two environment variables, connects to a server, creates
a subscription with one monitored item per configured tag, and prints (or,
in dead code, forwards to Kafka) each changed value.

Pure fragments (tag parsing, line formatting, request construction) are
embedded as Lean functions over `String` / `List Char`.  Effectful control
flow (`main`, `subscribe_to_values`, `send_kafka`) is embedded as functions
from the results of the external library calls (environment lookups,
connect, create_subscription, create_monitored_items, Kafka producer and
send) to the list of observable actions the program performs; a Rust panic
from `.unwrap()` is modelled by `Option.none` / a trailing `panicked`
action.  Machine integers do not overflow anywhere in the source paths
modelled here, so numbers are `Nat` / `Int`.
-/

namespace DCS

/-- Whitespace predicate used by trimming; matches Rust `char::is_whitespace`
on the ASCII whitespace characters that occur in tag lists. -/
def wsChar (c : Char) : Bool := c.isWhitespace

/-- Drop leading whitespace, as Rust `str::trim_start`. -/
def trimLeftChars (l : List Char) : List Char := l.dropWhile wsChar

/-- Drop trailing whitespace, as Rust `str::trim_end`. -/
def trimRightChars (l : List Char) : List Char := (l.reverse.dropWhile wsChar).reverse

/-- Drop leading and trailing whitespace, as Rust `str::trim`. -/
def trimChars (l : List Char) : List Char := trimRightChars (trimLeftChars l)

/-- Rust `str::trim` lifted to `String`. -/
def rustTrim (s : String) : String := ⟨trimChars s.data⟩

/-- Accumulator-based splitter: Rust `str::split(',')` over the character
list.  The accumulator holds the current segment reversed. -/
def splitCommaAux : List Char → List Char → List (List Char)
  | [], acc => [acc.reverse]
  | c :: cs, acc =>
    if c = ',' then acc.reverse :: splitCommaAux cs []
    else splitCommaAux cs (c :: acc)

/-- Rust `monitored_tags.split(',')` as a list of segment strings.  As in
Rust, the empty string yields one empty segment and consecutive commas
yield empty segments. -/
def rustSplitComma (s : String) : List String :=
  (splitCommaAux s.data []).map (fun cs => ⟨cs⟩)

/-- The tag-list parsing of `subscribe_to_values`:
`monitored_tags.split(',').map(|tags| tags.trim().to_string()).collect()`. -/
def parseMonitoredTags (monitored_tags : String) : List String :=
  (rustSplitComma monitored_tags).map (fun t => rustTrim t)

/-- OPC UA node identity with a string identifier: `NodeId::new(2, v)`. -/
structure NodeId where
  ns : Nat
  ident : String
deriving DecidableEq, Repr

/-- `NodeId::new` from the opcua crate restricted to string identifiers. -/
def NodeId.new (ns : Nat) (ident : String) : NodeId := ⟨ns, ident⟩

/-- `Display` for `NodeId` in the opcua crate: `ns=<ns>;s=<ident>` for a
string identifier. -/
def nodeIdDisplay (n : NodeId) : String :=
  "ns=" ++ toString n.ns ++ ";s=" ++ n.ident

/-- `ReadValueId`: the addressed part of a monitored item (only the
`node_id` field is read by the program). -/
structure ReadValueId where
  node_id : NodeId
deriving DecidableEq, Repr

/-- `MonitoredItemCreateRequest` as produced by `NodeId::new(2, v).into()`
(only the `item_to_monitor` field varies; monitoring parameters are the
crate defaults and are not read by the program). -/
structure MonitoredItemCreateRequest where
  item_to_monitor : ReadValueId
deriving DecidableEq, Repr

/-- The request construction of `subscribe_to_values`:
`monitored_tags_list.iter().map(|v| NodeId::new(2, v.clone()).into()).collect()`. -/
def itemsToCreate (tags : List String) : List MonitoredItemCreateRequest :=
  tags.map (fun v => { item_to_monitor := { node_id := NodeId.new 2 v } })

/-- The opcua `Variant` payload, restricted to the constructors exercised by
the claims; `variantDebug` below mirrors the derived `Debug` format. -/
inductive Variant where
  | Int32 (i : Int)
  | Boolean (b : Bool)
deriving DecidableEq, Repr

/-- Rust derived `Debug` representation of a `Variant`, as printed by
`{:?}`. -/
def variantDebug : Variant → String
  | .Int32 i => "Int32(" ++ toString i ++ ")"
  | .Boolean b => "Boolean(" ++ (if b then "true" else "false") ++ ")"

/-- OPC UA status codes, restricted to the ones the claims mention. -/
inductive StatusCode where
  | Good
  | BadNoData
  | BadUnexpectedError
deriving DecidableEq, Repr

/-- `Display` for `StatusCode` in the opcua crate prints the status name. -/
def statusName : StatusCode → String
  | .Good => "Good"
  | .BadNoData => "BadNoData"
  | .BadUnexpectedError => "BadUnexpectedError"

/-- `DataValue`: the last received value of a monitored item — an optional
payload and an optional status code. -/
structure DataValue where
  value : Option Variant
  status : Option StatusCode
deriving DecidableEq, Repr

/-- Client-side `MonitoredItem` handle: the fields `print_value` and
`send_kafka` read (`item_to_monitor()` and `last_value()`). -/
structure MonitoredItem where
  item_to_monitor : ReadValueId
  last_value : DataValue
deriving DecidableEq, Repr

/-- Which of the two `println!` branches of `print_value` fired, with the
interpolated pieces. -/
inductive PrintedLine where
  | valueLine (nodeDisplay : String) (valueRepr : String)
  | errorLine (nodeDisplay : String) (statusText : String)
deriving DecidableEq, Repr

/-- The exact text a `PrintedLine` puts on standard output. -/
def renderLine : PrintedLine → String
  | .valueLine d rep => "Item \"" ++ d ++ "\", Value = " ++ rep
  | .errorLine d st => "Item \"" ++ d ++ "\", Value not found, error: " ++ st

/-- `print_value` from the source: prints the value branch when the value is
present, otherwise prints the status via `data_value.status.as_ref().unwrap()`.
`none` models the panic of that unwrap when the status is also absent. -/
def print_value (item : MonitoredItem) : Option PrintedLine :=
  let node_id := item.item_to_monitor.node_id
  let data_value := item.last_value
  match data_value.value with
  | some value => some (.valueLine (nodeIdDisplay node_id) (variantDebug value))
  | none =>
    match data_value.status with
    | some st => some (.errorLine (nodeIdDisplay node_id) (statusName st))
    | none => none

/-- The data-change callback registered in `subscribe_to_values`:
`changed_monitored_items.iter().for_each(|item| print_value(item))` — one
`print_value` outcome per item of the change event, in order. -/
def on_data_change (changed_monitored_items : List MonitoredItem) :
    List (Option PrintedLine) :=
  changed_monitored_items.map print_value

/-- Observable actions of the program, in program order.  Library calls
appear as actions parameterised by the data the program passes them;
`panicked` marks an `.unwrap()` firing on an error, which aborts the
process at that point. -/
inductive Action where
  | readEnv (name : String)
  | printRawTags (s : String)
  | buildClient
  | connect
  | createSubscription
  | printParsedTags (tags : List String)
  | createMonitoredItems (subscriptionId : Nat) (items : List MonitoredItemCreateRequest)
  | printLine (s : String)
  | runSession
  | panicked
deriving DecidableEq, Repr

/-- `subscribe_to_values` from the source, as a function from the server's
responses to (actions performed, returned `Result`).  `subResp` is the
result of `create_subscription` (a subscription id on success) and
`itemsResp` the result of `create_monitored_items`; `?` propagates either
error to the caller. -/
def subscribe_to_values (monitored_tags : String)
    (subResp : Except StatusCode Nat) (itemsResp : Except StatusCode Unit) :
    List Action × Except StatusCode Unit :=
  match subResp with
  | .error e => ([.createSubscription], .error e)
  | .ok subscription_id =>
    let monitored_tags_list := parseMonitoredTags monitored_tags
    let items_to_create := itemsToCreate monitored_tags_list
    match itemsResp with
    | .error e =>
      ([.createSubscription, .printParsedTags monitored_tags_list,
        .createMonitoredItems subscription_id items_to_create], .error e)
    | .ok _ =>
      ([.createSubscription, .printParsedTags monitored_tags_list,
        .createMonitoredItems subscription_id items_to_create], .ok ())

/-- The process environment as seen through `var(..)`: the two variables
the program reads. -/
structure Env where
  opcuaServer : Option String
  monitoredTags : Option String
deriving DecidableEq, Repr

/-- `main` from the source, as the list of actions the process performs.
`var(..).unwrap()` panics when the variable is absent; `client().unwrap()`
and `connect_to_endpoint(..).unwrap()` panic when the corresponding library
call fails (`clientOk` / `connectOk` false).  After a successful connect,
`subscribe_to_values` runs and its `Result` selects between `Session::run`
and printing the fixed error message. -/
def main (env : Env) (clientOk connectOk : Bool)
    (subResp : Except StatusCode Nat) (itemsResp : Except StatusCode Unit) :
    List Action :=
  match env.opcuaServer with
  | none => [.readEnv "OPCUA_SERVER", .panicked]
  | some _ =>
    match env.monitoredTags with
    | none => [.readEnv "OPCUA_SERVER", .readEnv "MONITORED_TAGS", .panicked]
    | some monitored_tags =>
      [.readEnv "OPCUA_SERVER", .readEnv "MONITORED_TAGS",
       .printRawTags monitored_tags] ++
      (if clientOk then
        [.buildClient] ++
        (if connectOk then
          [.connect] ++
          (let r := subscribe_to_values monitored_tags subResp itemsResp
           r.1 ++
           (match r.2 with
            | .ok _ => [.runSession]
            | .error _ => [.printLine "Error creating subscription"]))
         else [.connect, .panicked])
       else [.buildClient, .panicked])

/-- Kafka `RequiredAcks` delivery-guarantee setting. -/
inductive RequiredAcks where
  | NoAck
  | One
  | All
deriving DecidableEq, Repr

/-- The producer configuration `send_kafka` builds:
`Producer::from_hosts(vec!(broker)).with_ack_timeout(1s).with_required_acks(One)`. -/
structure ProducerConfig where
  hosts : List String
  ack_timeout_secs : Nat
  required_acks : RequiredAcks
deriving DecidableEq, Repr

/-- Kafka record as passed to `producer.send`. -/
structure KafkaRecord where
  key : String
  value : String
  topic : String
  partition : Int
deriving DecidableEq, Repr

/-- Rust `Debug` of `Option<Variant>`: `Some(..)` wrapping the variant
debug text, or `None`. -/
def optionVariantDebug : Option Variant → String
  | some v => "Some(" ++ variantDebug v ++ ")"
  | none => "None"

/-- The payload `send_kafka` writes into its buffer:
`write!(&mut buf, "{:?}", item.last_value().value)` — the `Debug` text of
the `Option<Variant>`, not of the unwrapped variant. -/
def kafkaBuf (item : MonitoredItem) : String :=
  optionVariantDebug item.last_value.value

/-- The producer configuration for a given broker, as built in `send_kafka`. -/
def producerConfig (broker : String) : ProducerConfig :=
  { hosts := [broker], ack_timeout_secs := 1, required_acks := .One }

/-- `send_kafka` from the source: on success returns the configuration and
record handed to the Kafka library; `none` models the panic of
`create().unwrap()` (`createOk` false) or `send(..).unwrap()` (`sendOk`
false). -/
def send_kafka (broker : String) (item : MonitoredItem)
    (createOk sendOk : Bool) : Option (ProducerConfig × KafkaRecord) :=
  if createOk then
    if sendOk then
      some (producerConfig broker,
        { key := "start_kanban", value := kafkaBuf item,
          topic := "pss", partition := 1 })
    else none
  else none

/-! ### Helper lemmas about trimming -/

theorem dropWhile_dropWhile_self (p : Char → Bool) (l : List Char) :
    (l.dropWhile p).dropWhile p = l.dropWhile p := by
  induction l with
  | nil => rfl
  | cons x xs ih =>
    by_cases h : p x
    · simp [List.dropWhile_cons, h, ih]
    · simp [List.dropWhile_cons, h]

theorem dropWhile_head_cases (p : Char → Bool) (l : List Char) :
    l.dropWhile p = [] ∨ ∃ x xs, l.dropWhile p = x :: xs ∧ p x = false := by
  induction l with
  | nil => exact Or.inl rfl
  | cons y ys ih =>
    by_cases h : p y
    · simpa [List.dropWhile_cons, h] using ih
    · exact Or.inr ⟨y, ys, by simp [List.dropWhile_cons, h], by simpa using h⟩

theorem dropWhile_concat_last (p : Char → Bool) (ys : List Char) (x : Char)
    (hx : p x = false) : ∃ zs, (ys ++ [x]).dropWhile p = zs ++ [x] := by
  induction ys with
  | nil => exact ⟨[], by simp [List.dropWhile_cons, hx]⟩
  | cons y ys ih =>
    by_cases h : p y
    · obtain ⟨zs, hzs⟩ := ih
      exact ⟨zs, by simp [List.dropWhile_cons, h, hzs]⟩
    · exact ⟨y :: ys, by simp [List.dropWhile_cons, h]⟩

theorem trimRightChars_idem (l : List Char) :
    trimRightChars (trimRightChars l) = trimRightChars l := by
  simp [trimRightChars, List.reverse_reverse, dropWhile_dropWhile_self]

theorem trimLeftChars_trimRightChars_trimLeftChars (l : List Char) :
    trimLeftChars (trimRightChars (trimLeftChars l)) = trimRightChars (trimLeftChars l) := by
  rcases dropWhile_head_cases wsChar l with h | ⟨x, xs, hx, hpx⟩
  · have h' : trimLeftChars l = [] := h
    rw [h']
    rfl
  · have hm : trimLeftChars l = x :: xs := hx
    obtain ⟨zs, hzs⟩ := dropWhile_concat_last wsChar xs.reverse x hpx
    have hr : trimRightChars (trimLeftChars l) = x :: zs.reverse := by
      simp [trimRightChars, hm, hzs]
    rw [hr]
    simp [trimLeftChars, List.dropWhile_cons, hpx]

theorem trimChars_idem (l : List Char) : trimChars (trimChars l) = trimChars l := by
  unfold trimChars
  rw [trimLeftChars_trimRightChars_trimLeftChars, trimRightChars_idem]

theorem rustTrim_idem (s : String) : rustTrim (rustTrim s) = rustTrim s := by
  show (⟨trimChars (String.data ⟨trimChars s.data⟩)⟩ : String) = ⟨trimChars s.data⟩
  exact congrArg String.mk (trimChars_idem s.data)

/-! ### The claims -/

/-- C1: for every well-formed comma-separated tag string (each segment
trims to a non-empty identifier), the tag parsing of `subscribe_to_values`
yields a list of trimmed, non-empty identifiers whose length equals the
number of comma-delimited segments. -/
theorem C1_tag_parsing (s : String)
    (h : ∀ seg ∈ rustSplitComma s, rustTrim seg ≠ "") :
    (parseMonitoredTags s).length = (rustSplitComma s).length ∧
    ∀ t ∈ parseMonitoredTags s, t ≠ "" ∧ rustTrim t = t := by
  refine ⟨List.length_map _ _, ?_⟩
  intro t ht
  obtain ⟨seg, hseg, rfl⟩ := List.mem_map.mp ht
  exact ⟨h seg hseg, rustTrim_idem seg⟩

/-- C1 witness: the spec example `"A, B ,C"` parses to `["A","B","C"]` and
satisfies the parsing property. -/
theorem C1_tag_parsing_witness :
    parseMonitoredTags "A, B ,C" = ["A", "B", "C"] ∧
    ((parseMonitoredTags "A, B ,C").length = (rustSplitComma "A, B ,C").length ∧
      ∀ t ∈ parseMonitoredTags "A, B ,C", t ≠ "" ∧ rustTrim t = t) :=
  ⟨by decide, C1_tag_parsing "A, B ,C" (by decide)⟩

/-! ### Helper lemmas about printed lines -/

theorem data_append (a b : String) : (a ++ b).data = a.data ++ b.data := rfl

/-- `needle` occurs as a contiguous substring of `hay`. -/
def strContains (hay needle : String) : Prop := needle.data <:+: hay.data

theorem errorLine_contains_status (d st : String) :
    strContains (renderLine (.errorLine d st)) st := by
  refine ⟨("Item \"" ++ d ++ "\", Value not found, error: ").data, [], ?_⟩
  simp [renderLine, data_append, List.append_assoc]

theorem errorLine_contains_node (d st : String) :
    strContains (renderLine (.errorLine d st)) d := by
  refine ⟨"Item \"".data, ("\", Value not found, error: " ++ st).data, ?_⟩
  simp [renderLine, data_append, List.append_assoc]

theorem valueLine_contains_node (d rep : String) :
    strContains (renderLine (.valueLine d rep)) d := by
  refine ⟨"Item \"".data, ("\", Value = " ++ rep).data, ?_⟩
  simp [renderLine, data_append, List.append_assoc]

theorem valueLine_contains_42 (d : String) :
    strContains (renderLine (.valueLine d (variantDebug (Variant.Int32 42)))) "42" := by
  refine ⟨("Item \"" ++ d ++ "\", Value = Int32(").data, ")".data, ?_⟩
  simp [renderLine, variantDebug, data_append, List.append_assoc]
  decide

/-- C2: when the last value is absent and the status is `BadNoData`,
`print_value` prints the error-branch line, whose text contains the node
display and the status text `BadNoData`, and it does not print a
value-branch line (hence no numeric value). -/
theorem C2_absent_value_bad_no_data (item : MonitoredItem)
    (hv : item.last_value.value = none)
    (hs : item.last_value.status = some .BadNoData) :
    on_data_change [item] =
      [some (.errorLine (nodeIdDisplay item.item_to_monitor.node_id) "BadNoData")] ∧
    print_value item =
      some (.errorLine (nodeIdDisplay item.item_to_monitor.node_id) "BadNoData") ∧
    strContains
      (renderLine (.errorLine (nodeIdDisplay item.item_to_monitor.node_id) "BadNoData"))
      "BadNoData" ∧
    strContains
      (renderLine (.errorLine (nodeIdDisplay item.item_to_monitor.node_id) "BadNoData"))
      (nodeIdDisplay item.item_to_monitor.node_id) ∧
    ∀ d rep, print_value item ≠ some (.valueLine d rep) := by
  refine ⟨?_, by simp [print_value, hv, hs, statusName], errorLine_contains_status _ _,
    errorLine_contains_node _ _, ?_⟩
  · simp [on_data_change, print_value, hv, hs, statusName]
  · intro d rep
    simp [print_value, hv, hs]

/-- C2 witness: a concrete item with absent value and status `BadNoData`. -/
theorem C2_absent_value_bad_no_data_witness :
    on_data_change [⟨⟨NodeId.new 2 "T1"⟩, ⟨none, some .BadNoData⟩⟩] =
      [some (.errorLine (nodeIdDisplay (NodeId.new 2 "T1")) "BadNoData")] ∧
    print_value ⟨⟨NodeId.new 2 "T1"⟩, ⟨none, some .BadNoData⟩⟩ =
      some (.errorLine (nodeIdDisplay (NodeId.new 2 "T1")) "BadNoData") ∧
    strContains
      (renderLine (.errorLine (nodeIdDisplay (NodeId.new 2 "T1")) "BadNoData"))
      "BadNoData" ∧
    strContains
      (renderLine (.errorLine (nodeIdDisplay (NodeId.new 2 "T1")) "BadNoData"))
      (nodeIdDisplay (NodeId.new 2 "T1")) ∧
    ∀ d rep,
      print_value ⟨⟨NodeId.new 2 "T1"⟩, ⟨none, some .BadNoData⟩⟩ ≠
        some (.valueLine d rep) :=
  C2_absent_value_bad_no_data ⟨⟨NodeId.new 2 "T1"⟩, ⟨none, some .BadNoData⟩⟩ rfl rfl

/-- C6: when the last value is present with payload `Int32 42`,
`print_value` prints the value-branch line `Item "<id>", Value = <value>`,
whose text contains the node display and the literal `42`. -/
theorem C6_present_value_42 (item : MonitoredItem)
    (hv : item.last_value.value = some (Variant.Int32 42)) :
    on_data_change [item] =
      [some (.valueLine (nodeIdDisplay item.item_to_monitor.node_id)
        (variantDebug (Variant.Int32 42)))] ∧
    print_value item =
      some (.valueLine (nodeIdDisplay item.item_to_monitor.node_id)
        (variantDebug (Variant.Int32 42))) ∧
    strContains
      (renderLine (.valueLine (nodeIdDisplay item.item_to_monitor.node_id)
        (variantDebug (Variant.Int32 42))))
      "42" ∧
    strContains
      (renderLine (.valueLine (nodeIdDisplay item.item_to_monitor.node_id)
        (variantDebug (Variant.Int32 42))))
      (nodeIdDisplay item.item_to_monitor.node_id) :=
  ⟨by simp [on_data_change, print_value, hv], by simp [print_value, hv],
    valueLine_contains_42 _, valueLine_contains_node _ _⟩

/-- C6 witness: a concrete item carrying `Int32 42`. -/
theorem C6_present_value_42_witness :
    on_data_change [⟨⟨NodeId.new 2 "T1"⟩, ⟨some (.Int32 42), some .Good⟩⟩] =
      [some (.valueLine (nodeIdDisplay (NodeId.new 2 "T1"))
        (variantDebug (Variant.Int32 42)))] ∧
    print_value ⟨⟨NodeId.new 2 "T1"⟩, ⟨some (.Int32 42), some .Good⟩⟩ =
      some (.valueLine (nodeIdDisplay (NodeId.new 2 "T1"))
        (variantDebug (Variant.Int32 42))) ∧
    strContains
      (renderLine (.valueLine (nodeIdDisplay (NodeId.new 2 "T1"))
        (variantDebug (Variant.Int32 42))))
      "42" ∧
    strContains
      (renderLine (.valueLine (nodeIdDisplay (NodeId.new 2 "T1"))
        (variantDebug (Variant.Int32 42))))
      (nodeIdDisplay (NodeId.new 2 "T1")) :=
  C6_present_value_42 ⟨⟨NodeId.new 2 "T1"⟩, ⟨some (.Int32 42), some .Good⟩⟩ rfl

/-- C9: when both the value and the status of the last value are absent,
`print_value` panics (the unconditional `unwrap` on the status), modelled
as returning `none`; the dispatcher is total only when every absent value
carries a status code. -/
theorem C9_print_value_panics (item : MonitoredItem)
    (hv : item.last_value.value = none)
    (hs : item.last_value.status = none) :
    print_value item = none := by
  simp [print_value, hv, hs]

/-- C9 witness: a concrete item with neither value nor status. -/
theorem C9_print_value_panics_witness :
    (⟨⟨NodeId.new 2 "T1"⟩, ⟨none, none⟩⟩ : MonitoredItem).last_value.value = none ∧
    (⟨⟨NodeId.new 2 "T1"⟩, ⟨none, none⟩⟩ : MonitoredItem).last_value.status = none ∧
    print_value ⟨⟨NodeId.new 2 "T1"⟩, ⟨none, none⟩⟩ = none :=
  ⟨rfl, rfl, C9_print_value_panics ⟨⟨NodeId.new 2 "T1"⟩, ⟨none, none⟩⟩ rfl rfl⟩

/-- C7: `subscribe_to_values` creates exactly one monitored-item request
per parsed tag, in the same order, each addressing the node with fixed
namespace index 2 and the tag string as its key. -/
theorem C7_one_item_per_tag (tags : List String) :
    (itemsToCreate tags).length = tags.length ∧
    ∀ i tag, tags.get? i = some tag →
      (itemsToCreate tags).get? i = some ⟨⟨NodeId.new 2 tag⟩⟩ := by
  refine ⟨List.length_map _ _, ?_⟩
  intro i tag h
  simp only [itemsToCreate, List.get?_map, h]
  rfl

/-- C7 witness: two tags give two requests, the second addressing
`ns=2` with key `"B"`. -/
theorem C7_one_item_per_tag_witness :
    (itemsToCreate ["A", "B"]).length = (["A", "B"] : List String).length ∧
    (itemsToCreate ["A", "B"]).get? 1 = some ⟨⟨NodeId.new 2 "B"⟩⟩ :=
  ⟨(C7_one_item_per_tag ["A", "B"]).1,
   (C7_one_item_per_tag ["A", "B"]).2 1 "B" (by decide)⟩

/-- C10: tag parsing never filters out empty segments — consecutive commas,
a trailing comma, or the empty string produce empty-string tags, and an
empty node key is then requested for them. -/
theorem C10_empty_segments_kept :
    parseMonitoredTags "A,,B" = ["A", "", "B"] ∧
    parseMonitoredTags "A,B," = ["A", "B", ""] ∧
    parseMonitoredTags "" = [""] ∧
    (itemsToCreate (parseMonitoredTags "A,,B")).get? 1 =
      some ⟨⟨NodeId.new 2 ""⟩⟩ := by decide

/-- C4: when either required environment variable is absent, `main`
panics on the corresponding `unwrap` before the client is even built, so
no client construction and no connect attempt appears in the trace and
the trace ends in the panic. -/
theorem C4_missing_env_terminates_before_network (env : Env)
    (clientOk connectOk : Bool) (subResp : Except StatusCode Nat)
    (itemsResp : Except StatusCode Unit)
    (h : env.opcuaServer = none ∨ env.monitoredTags = none) :
    Action.buildClient ∉ main env clientOk connectOk subResp itemsResp ∧
    Action.connect ∉ main env clientOk connectOk subResp itemsResp ∧
    (main env clientOk connectOk subResp itemsResp).getLast? = some .panicked := by
  rcases env with ⟨srv, tags⟩
  rcases h with h | h
  · simp only at h
    subst h
    simp [main]
  · simp only at h
    subst h
    rcases srv with _ | s <;> simp [main]

/-- C4 witness: with `OPCUA_SERVER` absent, the trace has no client
construction and no connect, and ends in a panic. -/
theorem C4_missing_env_terminates_before_network_witness :
    Action.buildClient ∉ main ⟨none, some "A,B"⟩ true true (.ok 1) (.ok ()) ∧
    Action.connect ∉ main ⟨none, some "A,B"⟩ true true (.ok 1) (.ok ()) ∧
    (main ⟨none, some "A,B"⟩ true true (.ok 1) (.ok ())).getLast? = some .panicked :=
  C4_missing_env_terminates_before_network ⟨none, some "A,B"⟩ true true
    (.ok 1) (.ok ()) (Or.inl rfl)

/-- C5: after a successful connect, if `subscribe_to_values` returns an
error then `main` prints the fixed message `"Error creating subscription"`
and never runs `Session::run`; if it succeeds, `main` runs `Session::run`
and never prints that message. -/
theorem C5_subscription_failure_handling (srv tags : String)
    (subResp : Except StatusCode Nat) (itemsResp : Except StatusCode Unit) :
    (∀ e, (subscribe_to_values tags subResp itemsResp).2 = .error e →
        Action.printLine "Error creating subscription" ∈
          main ⟨some srv, some tags⟩ true true subResp itemsResp ∧
        Action.runSession ∉ main ⟨some srv, some tags⟩ true true subResp itemsResp) ∧
    ((subscribe_to_values tags subResp itemsResp).2 = .ok () →
        Action.runSession ∈ main ⟨some srv, some tags⟩ true true subResp itemsResp ∧
        Action.printLine "Error creating subscription" ∉
          main ⟨some srv, some tags⟩ true true subResp itemsResp) := by
  rcases subResp with e | subId
  · constructor
    · intro e0 h0
      simp [main, subscribe_to_values]
    · intro h0
      simp [subscribe_to_values] at h0
  · rcases itemsResp with e | u
    · constructor
      · intro e0 h0
        simp [main, subscribe_to_values]
      · intro h0
        simp [subscribe_to_values] at h0
    · constructor
      · intro e0 h0
        simp [subscribe_to_values] at h0
      · intro h0
        simp [main, subscribe_to_values]

/-- C5 witness: a rejected subscription prints the fixed message and skips
the run loop; an accepted one runs the loop and prints no failure. -/
theorem C5_subscription_failure_handling_witness :
    (Action.printLine "Error creating subscription" ∈
        main ⟨some "opc.tcp://srv:4855", some "A,B"⟩ true true
          (.error .BadUnexpectedError) (.ok ()) ∧
      Action.runSession ∉
        main ⟨some "opc.tcp://srv:4855", some "A,B"⟩ true true
          (.error .BadUnexpectedError) (.ok ())) ∧
    (Action.runSession ∈
        main ⟨some "opc.tcp://srv:4855", some "A,B"⟩ true true (.ok 1) (.ok ()) ∧
      Action.printLine "Error creating subscription" ∉
        main ⟨some "opc.tcp://srv:4855", some "A,B"⟩ true true (.ok 1) (.ok ())) :=
  ⟨(C5_subscription_failure_handling "opc.tcp://srv:4855" "A,B"
      (.error .BadUnexpectedError) (.ok ())).1 .BadUnexpectedError rfl,
   (C5_subscription_failure_handling "opc.tcp://srv:4855" "A,B"
      (.ok 1) (.ok ())).2 rfl⟩

/-- C8: every record `send_kafka` hands to the producer goes to topic
`"pss"` with partition `1`, under a configuration with one-acknowledgement
delivery and a one-second acknowledgement timeout; a failed producer
creation or a failed send is unwrapped, i.e. panics. -/
theorem C8_send_kafka_fixed_route (broker : String) (item : MonitoredItem)
    (createOk sendOk : Bool) :
    (∀ cfg r, send_kafka broker item createOk sendOk = some (cfg, r) →
        r.topic = "pss" ∧ r.partition = 1 ∧ r.key = "start_kanban" ∧
        r.value = kafkaBuf item ∧ cfg = producerConfig broker ∧
        cfg.required_acks = .One ∧ cfg.ack_timeout_secs = 1 ∧
        cfg.hosts = [broker]) ∧
    (createOk = false ∨ sendOk = false →
        send_kafka broker item createOk sendOk = none) := by
  constructor
  · intro cfg r h
    rcases createOk with _ | _
    · simp [send_kafka] at h
    · rcases sendOk with _ | _
      · simp [send_kafka] at h
      · simp [send_kafka] at h
        obtain ⟨hc, hr⟩ := h
        subst hc
        subst hr
        simp [producerConfig]
  · intro h
    rcases h with h | h
    · subst h
      simp [send_kafka]
    · subst h
      rcases createOk with _ | _ <;> simp [send_kafka]

/-- C8 witness: a concrete successful send produces the fixed route and
configuration, and a failed producer creation panics. -/
theorem C8_send_kafka_fixed_route_witness :
    (KafkaRecord.mk "start_kanban" "Some(Int32(42))" "pss" 1).topic = "pss" ∧
    (KafkaRecord.mk "start_kanban" "Some(Int32(42))" "pss" 1).partition = 1 ∧
    (KafkaRecord.mk "start_kanban" "Some(Int32(42))" "pss" 1).key = "start_kanban" ∧
    (KafkaRecord.mk "start_kanban" "Some(Int32(42))" "pss" 1).value =
      kafkaBuf ⟨⟨NodeId.new 2 "K"⟩, ⟨some (.Int32 42), some .Good⟩⟩ ∧
    producerConfig "broker:9092" = producerConfig "broker:9092" ∧
    (producerConfig "broker:9092").required_acks = .One ∧
    (producerConfig "broker:9092").ack_timeout_secs = 1 ∧
    (producerConfig "broker:9092").hosts = ["broker:9092"] ∧
    send_kafka "broker:9092" ⟨⟨NodeId.new 2 "K"⟩, ⟨some (.Int32 42), some .Good⟩⟩
      false true = none := by
  have h := (C8_send_kafka_fixed_route "broker:9092"
      ⟨⟨NodeId.new 2 "K"⟩, ⟨some (.Int32 42), some .Good⟩⟩ true true).1
      (producerConfig "broker:9092")
      (KafkaRecord.mk "start_kanban" "Some(Int32(42))" "pss" 1) (by decide)
  have h2 := (C8_send_kafka_fixed_route "broker:9092"
      ⟨⟨NodeId.new 2 "K"⟩, ⟨some (.Int32 42), some .Good⟩⟩ false true).2
      (Or.inl rfl)
  exact ⟨h.1, h.2.1, h.2.2.1, h.2.2.2.1, h.2.2.2.2.1, h.2.2.2.2.2.1,
    h.2.2.2.2.2.2.1, h.2.2.2.2.2.2.2, h2⟩

/-- C3 counterexample: for a present payload `Int32 42` the console
printer's representation of the value is `variantDebug (Int32 42)`
(`"Int32(42)"`), but `send_kafka` serializes the `Debug` text of the
whole `Option` (`"Some(Int32(42))"`), so the two texts differ. -/
theorem C3_payload_mismatch_counterexample :
    (⟨⟨NodeId.new 2 "A"⟩, ⟨some (.Int32 42), some .Good⟩⟩ :
        MonitoredItem).last_value.value = some (Variant.Int32 42) ∧
    print_value ⟨⟨NodeId.new 2 "A"⟩, ⟨some (.Int32 42), some .Good⟩⟩ =
      some (.valueLine (nodeIdDisplay (NodeId.new 2 "A"))
        (variantDebug (Variant.Int32 42))) ∧
    kafkaBuf ⟨⟨NodeId.new 2 "A"⟩, ⟨some (.Int32 42), some .Good⟩⟩ ≠
      variantDebug (Variant.Int32 42) := by decide

/-- C3 (amended): for every present value, the payload `send_kafka`
serializes is the console printer's representation of that value wrapped
in the `Option` `Debug` constructor, `"Some(" ++ repr ++ ")"`, not the
bare representation the console prints. -/
theorem C3_kafka_payload_wraps_console_repr (item : MonitoredItem)
    (v : Variant) (hv : item.last_value.value = some v) :
    print_value item =
      some (.valueLine (nodeIdDisplay item.item_to_monitor.node_id)
        (variantDebug v)) ∧
    kafkaBuf item = "Some(" ++ variantDebug v ++ ")" :=
  ⟨by simp [print_value, hv], by simp [kafkaBuf, optionVariantDebug, hv]⟩

/-- C3 witness: the amended relation at a concrete present value. -/
theorem C3_kafka_payload_wraps_console_repr_witness :
    print_value ⟨⟨NodeId.new 2 "W"⟩, ⟨some (.Int32 42), some .Good⟩⟩ =
      some (.valueLine (nodeIdDisplay (NodeId.new 2 "W"))
        (variantDebug (Variant.Int32 42))) ∧
    kafkaBuf ⟨⟨NodeId.new 2 "W"⟩, ⟨some (.Int32 42), some .Good⟩⟩ =
      "Some(" ++ variantDebug (Variant.Int32 42) ++ ")" :=
  C3_kafka_payload_wraps_console_repr
    ⟨⟨NodeId.new 2 "W"⟩, ⟨some (.Int32 42), some .Good⟩⟩ (Variant.Int32 42) rfl

end DCS
